import Mathlib

/-!
Verification of the ShippingCouncil orchestration layer.

Python strings are modelled as lists of characters, dictionaries keyed by
strings as association lists, and wall-clock timestamps as natural numbers.
Each definition is a direct translation of the corresponding function in
the repository (file and function named in its doc comment).
-/

namespace ShippingCouncil

/-- Python strings, modelled as their list of characters (code points). -/
abbrev PyStr := List Char

/-- Python str.lower(), modelled as per-character lowering. -/
def pyLower (s : PyStr) : PyStr := s.map Char.toLower

/-- Python substring membership test needle in haystack. -/
def pyContains (haystack needle : PyStr) : Bool :=
  match haystack with
  | [] => needle.isEmpty
  | c :: t => needle.isPrefixOf (c :: t) || pyContains t needle

/-- Python truthiness of `triggers or fallback` for an optional list:
None and the empty list are falsy. Models the assignment
check_triggers = triggers or ... in agents/base.py and in the agent
subclasses. -/
def effectiveTriggers (triggers : Option (List PyStr)) (fallback : List PyStr) :
    List PyStr :=
  match triggers with
  | none => fallback
  | some [] => fallback
  | some (t :: ts) => t :: ts

/-- BaseAgent.is_relevant (src/agents/base.py): falls back to
getattr(self.config, "triggers", []) when the argument is falsy, treats an
empty effective list as always relevant, and otherwise checks whether some
trigger is a case-insensitive substring of the message. -/
def is_relevant (message : PyStr) (triggers : Option (List PyStr))
    (configTriggers : List PyStr) : Bool :=
  let check_triggers := effectiveTriggers triggers configTriggers
  if check_triggers.isEmpty then
    true
  else
    check_triggers.any (fun trigger => pyContains (pyLower message) (pyLower trigger))

/-- The is_relevant override shared by BackendDevAgent and DevOpsAgent
(src/agents/backend_dev/agent.py, src/agents/devops/agent.py): same
substring check, but with no special case for an empty trigger list
(any over an empty list is False). -/
def agent_is_relevant (message : PyStr) (triggers : Option (List PyStr))
    (selfTriggers : List PyStr) : Bool :=
  (effectiveTriggers triggers selfTriggers).any
    (fun trigger => pyContains (pyLower message) (pyLower trigger))

/-- TaskStatus enumeration (src/core/task.py). -/
inductive TaskStatus where
  | pending
  | in_progress
  | awaiting_approval
  | approved
  | completed
  | failed
  | cancelled
deriving DecidableEq

/-- The list of all members of the TaskStatus enumeration, in source order. -/
def allTaskStatuses : List TaskStatus :=
  [.pending, .in_progress, .awaiting_approval, .approved, .completed, .failed,
   .cancelled]

/-- Truncation applied to successful chat responses before sending to
Discord (multi_bot.py on_message and both handlers in handlers.py):
responses longer than 1900 characters are cut to 1900 characters plus an
ellipsis. -/
def truncateResponse (s : PyStr) : PyStr :=
  if 1900 < s.length then s.take 1900 ++ "...".data else s

/-- Response formatting in multi_bot.py on_message: truncation, then in
character mode the prefix emoji plus a space. -/
def multiBotFormat (emoji : PyStr) (char_mode : Bool) (s : PyStr) : PyStr :=
  let response := truncateResponse s
  if char_mode then emoji ++ (' ' :: response) else response

/-- Response formatting in handlers.setup_agent_message_handler:
truncation, then the emoji prefix only when character mode is on, an agent
config is present (some) and its emoji is nonempty. -/
def agentHandlerFormat (emojiCfg : Option PyStr) (char_mode : Bool) (s : PyStr) :
    PyStr :=
  let response := truncateResponse s
  match emojiCfg with
  | some emoji =>
      if char_mode && !emoji.isEmpty then emoji ++ (' ' :: response) else response
  | none => response

/-- API-limit related state of a BaseAgent (src/agents/base.py):
the call counter and the configured maximum. -/
structure ApiState where
  api_call_count : Nat
  max_api_calls : Nat
deriving DecidableEq

/-- The message of the APILimitExceeded exception raised by
BaseAgent._check_api_limit. -/
def apiLimitError (maxCalls : Nat) : PyStr :=
  "API call limit reached (".data ++ (Nat.repr maxCalls).data ++
    " calls). Reset the agent or start a new session.".data

/-- BaseAgent._check_api_limit: none models the raised APILimitExceeded
(counter unchanged); otherwise the counter is incremented by one. -/
def check_api_limit (st : ApiState) : Option ApiState :=
  if st.max_api_calls ≤ st.api_call_count then none
  else some { st with api_call_count := st.api_call_count + 1 }

/-- AgentResult (src/agents/base.py), restricted to the fields the claims
speak about. -/
structure AgentResult where
  success : Bool
  message : PyStr
  error : Option PyStr := none
deriving DecidableEq

/-- Outcome of the API-limit gate at the top of BaseAgent.run and
BaseAgent.send_message: either an early AgentResult with the agent state
unchanged (SDK not invoked), or the SDK call proceeds with the incremented
counter. -/
inductive SdkGate where
  | limited (res : AgentResult) (st : ApiState)
  | sdkCall (st : ApiState)
deriving DecidableEq

/-- The shared prologue of BaseAgent.run and BaseAgent.send_message: call
_check_api_limit; on APILimitExceeded return a failure AgentResult with
message "API limit exceeded" without invoking the SDK. -/
def run_gate (st : ApiState) : SdkGate :=
  match check_api_limit st with
  | none =>
      .limited { success := false, message := "API limit exceeded".data,
                 error := some (apiLimitError st.max_api_calls) } st
  | some st2 => .sdkCall st2

/-- BaseAgent.reset_api_count (also called by BaseAgent.reset). -/
def reset_api_count (st : ApiState) : ApiState :=
  { st with api_call_count := 0 }

/-- Task (src/core/task.py): the dataclass fields, with datetimes as
natural-number timestamps and the free-form result dict as an association
list of string pairs. -/
structure Task where
  description : PyStr
  agent_type : PyStr
  id : PyStr
  status : TaskStatus := .pending
  created_at : Nat
  updated_at : Nat
  thread_id : Option Int := none
  repo_url : Option PyStr := none
  repo_full_name : Option PyStr := none
  branch_name : Option PyStr := none
  pr_url : Option PyStr := none
  result : List (PyStr × PyStr) := []
  error : Option PyStr := none
deriving DecidableEq

/-- Python dict assignment d[k] = v on a string-keyed dict modelled as an
association list: replace in place if the key is present, else append. -/
def dictInsert {α : Type} (k : PyStr) (v : α) :
    List (PyStr × α) → List (PyStr × α)
  | [] => [(k, v)]
  | (k2, v2) :: rest =>
      if k2 = k then (k, v) :: rest else (k2, v2) :: dictInsert k v rest

/-- Python dict lookup d.get(k). -/
def dictGet {α : Type} (k : PyStr) : List (PyStr × α) → Option α
  | [] => none
  | (k2, v2) :: rest => if k2 = k then some v2 else dictGet k rest

/-- Task.update_status: sets the status and refreshes updated_at. -/
def Task.update_status (t : Task) (s : TaskStatus) (now : Nat) : Task :=
  { t with status := s, updated_at := now }

/-- Task.set_result: sets the result dict and refreshes updated_at. -/
def Task.set_result (t : Task) (r : List (PyStr × PyStr)) (now : Nat) : Task :=
  { t with result := r, updated_at := now }

/-- Task.set_error: records the error, moves the status to failed and
refreshes updated_at. -/
def Task.set_error (t : Task) (e : PyStr) (now : Nat) : Task :=
  { t with error := some e, status := .failed, updated_at := now }

/-- The id assigned by the Task dataclass default factory:
str(uuid.uuid4())[:8], the first 8 characters of the generated UUID
string. -/
def uuidShort (u : PyStr) : PyStr := u.take 8

/-- TaskManager (src/core/task.py): the in-memory registry self._tasks. -/
structure TaskManager where
  tasks : List (PyStr × Task)
deriving DecidableEq

/-- TaskManager.create_task: builds a Task (id from the freshly generated
UUID string, status pending, both timestamps now, the kwargs that Council
passes through) and stores it under its id. -/
def TaskManager.create_task (tm : TaskManager) (description agent_type : PyStr)
    (uuid : PyStr) (now : Nat)
    (repo_url repo_full_name : Option PyStr) (thread_id : Option Int) :
    Task × TaskManager :=
  let t : Task :=
    { description := description, agent_type := agent_type,
      id := uuidShort uuid, status := .pending,
      created_at := now, updated_at := now,
      thread_id := thread_id, repo_url := repo_url,
      repo_full_name := repo_full_name }
  (t, ⟨dictInsert t.id t tm.tasks⟩)

/-- TaskManager.get_task: self._tasks.get(task_id). -/
def TaskManager.get_task (tm : TaskManager) (task_id : PyStr) : Option Task :=
  dictGet task_id tm.tasks

/-- One keyword argument passed to TaskManager.update_task: either a value
for one of the Task dataclass fields, or a key that does not name an
attribute of Task (for which hasattr is false and setattr is skipped). -/
inductive TaskUpdate where
  | description (v : PyStr)
  | agent_type (v : PyStr)
  | id (v : PyStr)
  | status (v : TaskStatus)
  | created_at (v : Nat)
  | updated_at (v : Nat)
  | thread_id (v : Option Int)
  | repo_url (v : Option PyStr)
  | repo_full_name (v : Option PyStr)
  | branch_name (v : Option PyStr)
  | pr_url (v : Option PyStr)
  | result (v : List (PyStr × PyStr))
  | error (v : Option PyStr)
  | unknownKey (k : PyStr)
deriving DecidableEq

/-- The Python keyword naming each update. -/
def TaskUpdate.key : TaskUpdate → PyStr
  | .description _ => "description".data
  | .agent_type _ => "agent_type".data
  | .id _ => "id".data
  | .status _ => "status".data
  | .created_at _ => "created_at".data
  | .updated_at _ => "updated_at".data
  | .thread_id _ => "thread_id".data
  | .repo_url _ => "repo_url".data
  | .repo_full_name _ => "repo_full_name".data
  | .branch_name _ => "branch_name".data
  | .pr_url _ => "pr_url".data
  | .result _ => "result".data
  | .error _ => "error".data
  | .unknownKey k => k

/-- Whether the update is a key for which hasattr(task, key) is false. -/
def TaskUpdate.isUnknownKey : TaskUpdate → Bool
  | .unknownKey _ => true
  | _ => false

/-- The attribute names of a Task object (dataclass fields plus methods),
i.e. the keys for which hasattr(task, key) is true: an unknownKey update
faithfully models a kwarg only when its key is outside this list. -/
def taskAttrNames : List PyStr :=
  ["description".data, "agent_type".data, "id".data, "status".data,
   "created_at".data, "updated_at".data, "thread_id".data, "repo_url".data,
   "repo_full_name".data, "branch_name".data, "pr_url".data, "result".data,
   "error".data, "update_status".data, "set_result".data, "set_error".data,
   "to_dict".data]

/-- The body of the update loop in TaskManager.update_task: setattr for a
known attribute, nothing for an unknown key. -/
def applyUpdate (t : Task) : TaskUpdate → Task
  | .description v => { t with description := v }
  | .agent_type v => { t with agent_type := v }
  | .id v => { t with id := v }
  | .status v => { t with status := v }
  | .created_at v => { t with created_at := v }
  | .updated_at v => { t with updated_at := v }
  | .thread_id v => { t with thread_id := v }
  | .repo_url v => { t with repo_url := v }
  | .repo_full_name v => { t with repo_full_name := v }
  | .branch_name v => { t with branch_name := v }
  | .pr_url v => { t with pr_url := v }
  | .result v => { t with result := v }
  | .error v => { t with error := v }
  | .unknownKey _ => t

/-- TaskManager.update_task: returns none leaving the registry unchanged
when the id is absent; otherwise applies the updates in order, refreshes
updated_at, and returns the updated task (the registry entry is the same
mutated object). -/
def TaskManager.update_task (tm : TaskManager) (task_id : PyStr)
    (updates : List TaskUpdate) (now : Nat) : Option Task × TaskManager :=
  match dictGet task_id tm.tasks with
  | none => (none, tm)
  | some t =>
      let t2 := { updates.foldl applyUpdate t with updated_at := now }
      (some t2, ⟨dictInsert task_id t2 tm.tasks⟩)

/-- Pairwise equality of Task fields outside a set of updated keys:
t2 agrees with t on every dataclass field (updated_at aside, which
update_task always refreshes) whose Python name is not in ks. -/
structure FieldsEqExcept (ks : List PyStr) (t t2 : Task) : Prop where
  description : "description".data ∉ ks → t2.description = t.description
  agent_type : "agent_type".data ∉ ks → t2.agent_type = t.agent_type
  id : "id".data ∉ ks → t2.id = t.id
  status : "status".data ∉ ks → t2.status = t.status
  created_at : "created_at".data ∉ ks → t2.created_at = t.created_at
  thread_id : "thread_id".data ∉ ks → t2.thread_id = t.thread_id
  repo_url : "repo_url".data ∉ ks → t2.repo_url = t.repo_url
  repo_full_name : "repo_full_name".data ∉ ks → t2.repo_full_name = t.repo_full_name
  branch_name : "branch_name".data ∉ ks → t2.branch_name = t.branch_name
  pr_url : "pr_url".data ∉ ks → t2.pr_url = t.pr_url
  result : "result".data ∉ ks → t2.result = t.result
  error : "error".data ∉ ks → t2.error = t.error

/-- Python truthiness of an Optional[str]: None and the empty string are
falsy. -/
def optFalsy (o : Option PyStr) : Bool :=
  match o with
  | none => true
  | some s => s.isEmpty

/-- Council state (src/core/council.py): the TaskManager dict, the keys of
self._running_tasks (ids with a registered asyncio handle), the set of
handles on which .cancel() has been called, and the configured default
repository. -/
structure CouncilState where
  tasks : List (PyStr × Task)
  running : List PyStr
  cancelRequested : List PyStr
  default_repo : Option PyStr
deriving DecidableEq

/-- The initial state of a freshly constructed Council. -/
def initState (default_repo : Option PyStr) : CouncilState :=
  ⟨[], [], [], default_repo⟩

/-- Council.create_task followed (when auto_start) by Council._start_task:
fills in the default repository when none is given, creates the task via
the TaskManager, and on auto_start moves it to in_progress and registers
the spawned asyncio handle under the task id. -/
def Council.create_task (s : CouncilState) (description agent_type : PyStr)
    (repo_url repo_full_name : Option PyStr) (thread_id : Option Int)
    (auto_start : Bool) (uuid : PyStr) (now : Nat) : Task × CouncilState :=
  let repos : Option PyStr × Option PyStr :=
    if optFalsy repo_full_name && !optFalsy s.default_repo then
      match s.default_repo with
      | some d => (some ("https://github.com/".data ++ d), some d)
      | none => (repo_url, repo_full_name)
    else (repo_url, repo_full_name)
  let created := TaskManager.create_task ⟨s.tasks⟩ description agent_type uuid now
    repos.1 repos.2 thread_id
  let t := created.1
  if auto_start then
    let t2 := t.update_status .in_progress now
    (t2, { s with tasks := dictInsert t2.id t2 created.2.tasks,
                  running := t2.id :: s.running })
  else
    (t, { s with tasks := created.2.tasks })

/-- How one run of Council._execute_task ends, covering the branches of
_execute_backend_dev_task, _execute_devops_task and the surrounding
try/except of _execute_task. -/
inductive ExecOutcome where
  | unknownAgent (agent_type : PyStr)
  | noRepo
  | implemented (branch : PyStr) (res : List (PyStr × PyStr))
  | implementFailed (err : PyStr)
  | devopsOk (msg : PyStr)
  | devopsFailed (err : PyStr)
  | cancelledRun
  | raisedError (err : PyStr)
deriving DecidableEq

/-- The mutation Council._execute_task performs on the task for each way
the run can end. -/
def applyOutcome (t : Task) (o : ExecOutcome) (now : Nat) : Task :=
  match o with
  | .unknownAgent a => t.set_error ("Unknown agent type: ".data ++ a) now
  | .noRepo => t.set_error "No repository specified".data now
  | .implemented branch res =>
      (({ t with branch_name := some branch }).set_result res now).update_status
        .awaiting_approval now
  | .implementFailed e => t.set_error e now
  | .devopsOk msg =>
      (t.set_result [("message".data, msg)] now).update_status .completed now
  | .devopsFailed e => t.set_error e now
  | .cancelledRun => t.update_status .cancelled now
  | .raisedError e => t.set_error e now

/-- One status mutation performed by the running _execute_task coroutine
(or its helpers) on the task with the given id: the task is mutated
according to the branch taken while the id is still registered in
self._running_tasks (the finally-block removal happens only later, after
further awaits, and is modelled separately by Council.execute_cleanup). -/
def Council.execute_mutation (s : CouncilState) (id : PyStr) (o : ExecOutcome)
    (now : Nat) : CouncilState :=
  match dictGet id s.tasks with
  | none => s
  | some t => { s with tasks := dictInsert id (applyOutcome t o now) s.tasks }

/-- The finally block of Council._execute_task: the id is removed from
self._running_tasks, with no status change. -/
def Council.execute_cleanup (s : CouncilState) (id : PyStr) : CouncilState :=
  { s with running := s.running.filter (fun k => k ≠ id) }

/-- Council.cancel_task: False when the task is missing or its status is
neither pending nor in_progress; otherwise .cancel() is called on the
registered asyncio handle if there is one, the status becomes cancelled,
and True is returned. -/
def Council.cancel_task (s : CouncilState) (id : PyStr) (now : Nat) :
    Bool × CouncilState :=
  match dictGet id s.tasks with
  | none => (false, s)
  | some t =>
      if t.status = .pending ∨ t.status = .in_progress then
        let s2 :=
          if id ∈ s.running then
            { s with cancelRequested := id :: s.cancelRequested }
          else s
        (true, { s2 with
                 tasks := dictInsert id (t.update_status .cancelled now) s2.tasks })
      else (false, s)

/-- The state in the middle of Council.approve_task, after the first
update_status(APPROVED) and before update_status(COMPLETED). -/
def Council.approve_mid (s : CouncilState) (id : PyStr) (t : Task) (now : Nat) :
    CouncilState :=
  { s with tasks := dictInsert id (t.update_status .approved now) s.tasks }

/-- Council.approve_task: False when the task is missing or not
awaiting_approval; otherwise the status is set to approved and then to
completed, and True is returned. -/
def Council.approve_task (s : CouncilState) (id : PyStr) (now : Nat) :
    Bool × CouncilState :=
  match dictGet id s.tasks with
  | none => (false, s)
  | some t =>
      if t.status = .awaiting_approval then
        let s1 := Council.approve_mid s id t now
        (true, { s1 with
                 tasks := dictInsert id
                   ((t.update_status .approved now).update_status .completed now)
                   s1.tasks })
      else (false, s)

/-- One observable Council operation, as a relation between states. Each
asyncio await boundary lets operations interleave, so a running
execution's status mutations (mutate) are separate events from its
finally-block handle removal (remove), and no ordering or outcome
constraint is imposed between them: in particular a handle on which
.cancel() was called need not end in the CancelledError branch, because an
exception raised by `finally: await agent.cleanup()` supersedes the
CancelledError and reaches `except Exception`, whose set_error runs as a
raisedError mutation. This relation admits every interleaving the event
loop can produce (and more); the only side condition besides a mutation
belonging to a registered execution is that a created task's UUID is
fresh. -/
inductive Step : CouncilState → CouncilState → Prop where
  | create (s : CouncilState) (description agent_type : PyStr)
      (repo_url repo_full_name : Option PyStr) (thread_id : Option Int)
      (auto_start : Bool) (uuid : PyStr) (now : Nat)
      (hfresh : dictGet (uuidShort uuid) s.tasks = none) :
      Step s (Council.create_task s description agent_type repo_url
        repo_full_name thread_id auto_start uuid now).2
  | mutate (s : CouncilState) (id : PyStr) (o : ExecOutcome) (now : Nat)
      (hrun : id ∈ s.running) :
      Step s (Council.execute_mutation s id o now)
  | remove (s : CouncilState) (id : PyStr) :
      Step s (Council.execute_cleanup s id)
  | cancel (s : CouncilState) (id : PyStr) (now : Nat) :
      Step s (Council.cancel_task s id now).2
  | approve (s : CouncilState) (id : PyStr) (now : Nat) :
      Step s (Council.approve_task s id now).2

/-- States a Council can be in: the initial state and anything reachable
from it by Council operations. -/
inductive Reachable : CouncilState → Prop where
  | init (default_repo : Option PyStr) : Reachable (initState default_repo)
  | step {s s2 : CouncilState} : Reachable s → Step s s2 → Reachable s2

/-- Terminal statuses of the task lifecycle. -/
def TaskStatus.isTerminal : TaskStatus → Bool
  | .completed => true
  | .failed => true
  | .cancelled => true
  | _ => false

/-- A Discord message as seen by the on_message closure in
multi_bot.py, reduced to the observations the handler makes of it. -/
structure IncomingMessage where
  authorIsSelf : Bool
  authorIsBot : Bool
  mentionsBot : Bool
  mention_everyone : Bool
  isDM : Bool
  content : PyStr

/-- What the multi-bot on_message handler sends back: nothing, the
"How can I help you?" fallback, a formatted successful response, or an
error reply. -/
inductive BotSend where
  | silent
  | helpReply
  | reply (text : PyStr)
  | errorReply (text : PyStr)
deriving DecidableEq

/-- Python s.replace(pat, "") for a nonempty pattern: removes the
occurrences left to right. -/
def pyRemove (s pat : PyStr) : PyStr :=
  match s with
  | [] => []
  | c :: rest =>
      if h : pat ≠ [] ∧ pat.isPrefixOf (c :: rest) then
        pyRemove ((c :: rest).drop pat.length) pat
      else
        c :: pyRemove rest pat
termination_by s.length
decreasing_by
  · simp only [ List.length_drop, List.length_cons]
    have hpos : 0 < pat.length := List.length_pos.mpr h.1
    omega
  · simp

/-- Python s.strip(): drop whitespace from both ends. -/
def pyStrip (s : PyStr) : PyStr :=
  ((s.dropWhile Char.isWhitespace).reverse.dropWhile Char.isWhitespace).reverse

/-- The mention-stripping in multi_bot.py on_message: remove the bot's own
mention token when c.user is set, remove "@everyone" and "@here", then
strip whitespace. -/
def stripMentionContent (content : PyStr) (botUser : Option PyStr) : PyStr :=
  let c1 :=
    match botUser with
    | some uid => pyRemove content ("<@".data ++ uid ++ ">".data)
    | none => content
  pyStrip (pyRemove (pyRemove c1 "@everyone".data) "@here".data)

/-- The on_message closure registered by MultiBotCoordinator.start_all
(multi_bot.py): ignore own and bot messages; respond when directly
mentioned, when @everyone or @here is mentioned, in a DM, or when the
agent's trigger check on the message content succeeds; then send the
fallback, the formatted chat response, or an error reply. The chat result
abstracts the agent.chat call. -/
def multiBot_on_message (m : IncomingMessage) (cfgTriggers : List PyStr)
    (botUser : Option PyStr) (chatResult : AgentResult) (emoji : PyStr)
    (char_mode : Bool) : BotSend :=
  if m.authorIsSelf then .silent
  else if m.authorIsBot then .silent
  else
    let should :=
      m.mentionsBot || m.mention_everyone || m.isDM ||
        agent_is_relevant m.content (some cfgTriggers) cfgTriggers
    if should then
      let content := stripMentionContent m.content botUser
      if content.isEmpty then .helpReply
      else if chatResult.success then
        .reply (multiBotFormat emoji char_mode chatResult.message)
      else
        .errorReply ("Sorry, I encountered an error: ".data ++
          (match chatResult.error with
           | some e => e
           | none => "None".data))
    else .silent

/-! Concrete fixtures used by witness and counterexample theorems. -/

/-- A stored task used by the update_task witness. -/
def wTask1 : Task :=
  { description := "write docs".data, agent_type := "developer".data,
    id := "t1".data, status := .pending, created_at := 0, updated_at := 0 }

/-- A registry holding wTask1. -/
def wTm : TaskManager := ⟨[("t1".data, wTask1)]⟩

/-- A concrete update list with one known and one unknown key. -/
def wUpdates : List TaskUpdate :=
  [.status .in_progress, .unknownKey "bogus".data]

/-- First generated UUID of the id-collision counterexample. -/
def cexUuidA : PyStr := "aaaaaaaa-1111-4111-8111-111111111111".data

/-- Second generated UUID of the id-collision counterexample: distinct
from cexUuidA but sharing its first 8 characters. -/
def cexUuidB : PyStr := "aaaaaaaa-2222-4222-8222-222222222222".data

/-- The first created task of the counterexample. -/
def cexTask1 : Task :=
  (TaskManager.create_task ⟨[]⟩ "first task".data "developer".data cexUuidA 0
    none none none).1

/-- The registry after creating the first task. -/
def cexTm1 : TaskManager :=
  (TaskManager.create_task ⟨[]⟩ "first task".data "developer".data cexUuidA 0
    none none none).2

/-- The second created task of the counterexample. -/
def cexTask2 : Task :=
  (cexTm1.create_task "second task".data "developer".data cexUuidB 1
    none none none).1

/-- The registry after both creations. -/
def cexTm2 : TaskManager :=
  (cexTm1.create_task "second task".data "developer".data cexUuidB 1
    none none none).2

/-- A task awaiting approval, for the approve_task witness. -/
def wTaskAwait : Task :=
  { description := "feature".data, agent_type := "backend_dev".data,
    id := "a1".data, status := .awaiting_approval, created_at := 0,
    updated_at := 3 }

/-- A council state holding wTaskAwait. -/
def wsAwait : CouncilState := ⟨[("a1".data, wTaskAwait)], [], [], none⟩

/-- An in-progress task with a registered handle, for the cancel_task
witness. -/
def wTaskRun : Task :=
  { description := "ship".data, agent_type := "devops".data,
    id := "r1".data, status := .in_progress, created_at := 0, updated_at := 0 }

/-- A council state holding wTaskRun with its handle registered. -/
def wsRun : CouncilState := ⟨[("r1".data, wTaskRun)], ["r1".data], [], none⟩

/-- Generated UUID of the lifecycle witness. -/
def wUuid : PyStr := "12345678-aaaa-4bbb-8ccc-000000000000".data

/-- Council state after creating a devops task with auto_start. -/
def wC1s1 : CouncilState :=
  (Council.create_task (initState none) "check containers".data "devops".data
    none none none true wUuid 0).2

/-- Council state after the devops execution performed its COMPLETED
mutation and its finally block removed the handle. -/
def wC1s2 : CouncilState :=
  Council.execute_cleanup
    (Council.execute_mutation wC1s1 "12345678".data
      (.devopsOk "all good".data) 1)
    "12345678".data

/-- The completed task stored in wC1s2. -/
def wC1task : Task :=
  { description := "check containers".data, agent_type := "devops".data,
    id := "12345678".data, status := .completed, created_at := 0,
    updated_at := 1, result := [("message".data, "all good".data)] }

/-- Counterexample state: the in_progress wC1s1 task after
Council.cancel_task set it to cancelled and requested cancellation of its
still-registered handle. -/
def cxC1s2 : CouncilState :=
  (Council.cancel_task wC1s1 "12345678".data 1).2

/-- Counterexample state: cleanup raised during the cancellation, the
exception superseded the CancelledError, and except Exception ran
set_error on the already-cancelled task. -/
def cxC1s3 : CouncilState :=
  Council.execute_mutation cxC1s2 "12345678".data
    (.raisedError "disconnect failed".data) 2

/-- The cancelled task stored in cxC1s2. -/
def cxC1taskC : Task :=
  { description := "check containers".data, agent_type := "devops".data,
    id := "12345678".data, status := .cancelled, created_at := 0,
    updated_at := 1 }

/-- The failed task stored in cxC1s3: the same task after set_error ran
in the except Exception branch. -/
def cxC1taskF : Task :=
  { description := "check containers".data, agent_type := "devops".data,
    id := "12345678".data, status := .failed, created_at := 0,
    updated_at := 2, error := some "disconnect failed".data }

/-! Theorems. -/

/-- Looking up the key just inserted returns the inserted value. -/
theorem dictGet_insert_self {α : Type} (k : PyStr) (v : α)
    (d : List (PyStr × α)) : dictGet k (dictInsert k v d) = some v := by
  induction d with
  | nil => simp [dictInsert, dictGet]
  | cons p rest ih =>
      obtain ⟨k2, v2⟩ := p
      by_cases h : k2 = k
      · simp [dictInsert, dictGet, h]
      · simp [dictInsert, dictGet, h, ih]

/-- Looking up any other key is unaffected by an insertion. -/
theorem dictGet_insert_ne {α : Type} (k j : PyStr) (v : α)
    (d : List (PyStr × α)) (h : j ≠ k) :
    dictGet j (dictInsert k v d) = dictGet j d := by
  have hkj : ¬ k = j := fun hh => h hh.symm
  induction d with
  | nil => simp [dictInsert, dictGet, hkj]
  | cons p rest ih =>
      obtain ⟨k2, v2⟩ := p
      by_cases h2 : k2 = k
      · subst h2
        simp [dictInsert, dictGet, hkj]
      · simp [dictInsert, dictGet, h2, ih]

/-- pyContains decides list containment: it is exactly the substring
(infix) relation of Python's in operator. -/
theorem pyContains_iff (haystack needle : PyStr) :
    pyContains haystack needle = true ↔ needle <:+: haystack := by
  induction haystack with
  | nil => simp [pyContains, List.isEmpty_iff, List.infix_nil]
  | cons c t ih =>
      simp [pyContains, Bool.or_eq_true, ih, List.isPrefixOf_iff_prefix,
        List.infix_cons_iff]

/-- Field agreement outside the empty update set is reflexive. -/
theorem fieldsEqExcept_refl (ks : List PyStr) (t : Task) :
    FieldsEqExcept ks t t :=
  ⟨fun _ => rfl, fun _ => rfl, fun _ => rfl, fun _ => rfl, fun _ => rfl,
   fun _ => rfl, fun _ => rfl, fun _ => rfl, fun _ => rfl, fun _ => rfl,
   fun _ => rfl, fun _ => rfl⟩

/-- Field agreement composes along two update sets contained in a larger
one. -/
theorem fieldsEqExcept_trans {ks1 ks2 ks : List PyStr} {t t2 t3 : Task}
    (h1 : FieldsEqExcept ks1 t t2) (h2 : FieldsEqExcept ks2 t2 t3)
    (s1 : ∀ x ∈ ks1, x ∈ ks) (s2 : ∀ x ∈ ks2, x ∈ ks) :
    FieldsEqExcept ks t t3 :=
  ⟨fun h => (h2.description fun hx => h (s2 _ hx)).trans
      (h1.description fun hx => h (s1 _ hx)),
   fun h => (h2.agent_type fun hx => h (s2 _ hx)).trans
      (h1.agent_type fun hx => h (s1 _ hx)),
   fun h => (h2.id fun hx => h (s2 _ hx)).trans (h1.id fun hx => h (s1 _ hx)),
   fun h => (h2.status fun hx => h (s2 _ hx)).trans
      (h1.status fun hx => h (s1 _ hx)),
   fun h => (h2.created_at fun hx => h (s2 _ hx)).trans
      (h1.created_at fun hx => h (s1 _ hx)),
   fun h => (h2.thread_id fun hx => h (s2 _ hx)).trans
      (h1.thread_id fun hx => h (s1 _ hx)),
   fun h => (h2.repo_url fun hx => h (s2 _ hx)).trans
      (h1.repo_url fun hx => h (s1 _ hx)),
   fun h => (h2.repo_full_name fun hx => h (s2 _ hx)).trans
      (h1.repo_full_name fun hx => h (s1 _ hx)),
   fun h => (h2.branch_name fun hx => h (s2 _ hx)).trans
      (h1.branch_name fun hx => h (s1 _ hx)),
   fun h => (h2.pr_url fun hx => h (s2 _ hx)).trans
      (h1.pr_url fun hx => h (s1 _ hx)),
   fun h => (h2.result fun hx => h (s2 _ hx)).trans
      (h1.result fun hx => h (s1 _ hx)),
   fun h => (h2.error fun hx => h (s2 _ hx)).trans
      (h1.error fun hx => h (s1 _ hx))⟩

/-- A single setattr only touches the field its key names. -/
theorem applyUpdate_fieldsEq (t : Task) (u : TaskUpdate) :
    FieldsEqExcept [u.key] t (applyUpdate t u) := by
  cases u <;>
    refine ⟨?_, ?_, ?_, ?_, ?_, ?_, ?_, ?_, ?_, ?_, ?_, ?_⟩ <;>
    intro h <;>
    first
      | rfl
      | exact absurd (by simp [ TaskUpdate.key]) h

/-- Folding the update loop only touches the fields named by the update
keys. -/
theorem foldl_fieldsEq (us : List TaskUpdate) (t : Task) :
    FieldsEqExcept (us.map TaskUpdate.key) t (us.foldl applyUpdate t) := by
  induction us generalizing t with
  | nil => exact fieldsEqExcept_refl _ t
  | cons u us ih =>
      refine fieldsEqExcept_trans (applyUpdate_fieldsEq t u)
        (ih (applyUpdate t u)) ?_ ?_
      · intro x hx
        simp only [ List.mem_singleton] at hx
        simp [hx]
      · intro x hx
        simp [ List.map_cons]
        exact Or.inr (by simpa using hx)

/-- Updates with unknown keys are no-ops: dropping them from the update
loop changes nothing. -/
theorem foldl_filter_unknown (us : List TaskUpdate) (t : Task) :
    (us.filter (fun u => !u.isUnknownKey)).foldl applyUpdate t =
      us.foldl applyUpdate t := by
  induction us generalizing t with
  | nil => rfl
  | cons u us ih => cases u <;> exact ih _

/-- C10: TaskManager.update_task returns none and changes nothing when the
id is absent; otherwise it applies exactly the updates whose keys name
Task attributes (unknown keys are silently ignored), refreshes updated_at,
leaves the fields not named by any update and every other registry entry
unchanged, and returns (and stores) the updated task. -/
theorem update_task_spec (tm : TaskManager) (task_id : PyStr)
    (updates : List TaskUpdate) (now : Nat) :
    (tm.get_task task_id = none →
      tm.update_task task_id updates now = (none, tm)) ∧
    (∀ t, tm.get_task task_id = some t →
      (tm.update_task task_id updates now).1 =
        some { updates.foldl applyUpdate t with updated_at := now } ∧
      (tm.update_task task_id updates now).2.get_task task_id =
        some { updates.foldl applyUpdate t with updated_at := now } ∧
      ({ updates.foldl applyUpdate t with updated_at := now } : Task).updated_at
        = now ∧
      FieldsEqExcept (updates.map TaskUpdate.key) t
        { updates.foldl applyUpdate t with updated_at := now } ∧
      (updates.filter (fun u => !u.isUnknownKey)).foldl applyUpdate t =
        updates.foldl applyUpdate t ∧
      (∀ k, k ≠ task_id →
        (tm.update_task task_id updates now).2.get_task k = tm.get_task k)) := by
  constructor
  · intro hnone
    unfold TaskManager.update_task
    unfold TaskManager.get_task at hnone
    rw [hnone]
  · intro t hsome
    unfold TaskManager.get_task at hsome
    have hupd : tm.update_task task_id updates now =
        (some { updates.foldl applyUpdate t with updated_at := now },
         ⟨dictInsert task_id
            { updates.foldl applyUpdate t with updated_at := now } tm.tasks⟩) := by
      unfold TaskManager.update_task
      rw [hsome]
    refine ⟨by rw [hupd], ?_, rfl, ?_, foldl_filter_unknown updates t, ?_⟩
    · rw [hupd]
      exact dictGet_insert_self _ _ _
    · have hf := foldl_fieldsEq updates t
      exact ⟨hf.description, hf.agent_type, hf.id, hf.status, hf.created_at,
        hf.thread_id, hf.repo_url, hf.repo_full_name, hf.branch_name,
        hf.pr_url, hf.result, hf.error⟩
    · intro k hk
      rw [hupd]
      exact dictGet_insert_ne _ _ _ _ hk

/-- Witness for update_task_spec: an absent id changes nothing, and a
present task is updated with its unknown key ignored. -/
theorem update_task_spec_witness :
    (TaskManager.update_task ⟨[]⟩ "x".data [] 0 = (none, ⟨[]⟩)) ∧
    ((TaskManager.update_task wTm "t1".data wUpdates 9).1 =
      some { wUpdates.foldl applyUpdate wTask1 with updated_at := 9 }) :=
  ⟨(update_task_spec ⟨[]⟩ "x".data [] 0).1 rfl,
   ((update_task_spec wTm "t1".data wUpdates 9).2 wTask1 (by decide)).1⟩

/-- C6 counterexample: with two distinct generated UUIDs sharing their
first 8 characters, the stored id is not the generated UUID string, two
distinct tasks receive the same id, and get_task on the first task's id
returns the second task instead of the first. -/
theorem create_task_id_collision :
    cexTask1.id ≠ cexUuidA ∧
    cexTask1 ≠ cexTask2 ∧
    cexTask1.id = cexTask2.id ∧
    cexTm2.get_task cexTask1.id = some cexTask2 ∧
    cexTm2.get_task cexTask1.id ≠ some cexTask1 := by
  refine ⟨by decide, by decide, by decide, by decide, by decide⟩

/-- C6 amended: the created task's id is the first 8 characters of the
freshly generated UUID string; the task is stored and retrievable under
that id, every other registry entry is untouched, and as long as the
truncated id is fresh the new task's id differs from every id already in
the registry. -/
theorem create_task_short_id (tm : TaskManager) (description agent_type : PyStr)
    (uuid : PyStr) (now : Nat) (repo_url repo_full_name : Option PyStr)
    (thread_id : Option Int) :
    (TaskManager.create_task tm description agent_type uuid now repo_url
        repo_full_name thread_id).1.id = uuidShort uuid ∧
    (TaskManager.create_task tm description agent_type uuid now repo_url
        repo_full_name thread_id).2.get_task (uuidShort uuid) =
      some (TaskManager.create_task tm description agent_type uuid now repo_url
        repo_full_name thread_id).1 ∧
    (∀ k, k ≠ uuidShort uuid →
      (TaskManager.create_task tm description agent_type uuid now repo_url
          repo_full_name thread_id).2.get_task k = tm.get_task k) ∧
    (tm.get_task (uuidShort uuid) = none →
      ∀ k t2, tm.get_task k = some t2 →
        k ≠ (TaskManager.create_task tm description agent_type uuid now repo_url
          repo_full_name thread_id).1.id) := by
  refine ⟨rfl, dictGet_insert_self _ _ _,
    fun k hk => dictGet_insert_ne _ _ _ _ hk, ?_⟩
  intro hfresh k t2 hget hk
  rw [show (TaskManager.create_task tm description agent_type uuid now repo_url
      repo_full_name thread_id).1.id = uuidShort uuid from rfl] at hk
  rw [hk] at hget
  unfold TaskManager.get_task at hfresh hget
  rw [hfresh] at hget
  exact Option.noConfusion hget

/-- Witness for create_task_short_id on an empty registry and a fresh
UUID. -/
theorem create_task_short_id_witness :
    ((TaskManager.create_task ⟨[]⟩ "d".data "devops".data cexUuidA 4 none none
        none).1.id = uuidShort cexUuidA) ∧
    (∀ k t2, TaskManager.get_task ⟨[]⟩ k = some t2 →
      k ≠ (TaskManager.create_task ⟨[]⟩ "d".data "devops".data cexUuidA 4 none
        none none).1.id) :=
  ⟨(create_task_short_id ⟨[]⟩ "d".data "devops".data cexUuidA 4 none none
      none).1,
   (create_task_short_id ⟨[]⟩ "d".data "devops".data cexUuidA 4 none none
      none).2.2.2 rfl⟩

/-- C3: BaseAgent.is_relevant returns True exactly when the effective
trigger list (the argument if truthy, else the config fallback) is empty,
or some trigger is a case-insensitive substring of the message. -/
theorem is_relevant_iff (message : PyStr) (triggers : Option (List PyStr))
    (configTriggers : List PyStr) :
    is_relevant message triggers configTriggers = true ↔
      (effectiveTriggers triggers configTriggers = [] ∨
        ∃ t ∈ effectiveTriggers triggers configTriggers,
          pyLower t <:+: pyLower message) := by
  unfold is_relevant
  rcases h : effectiveTriggers triggers configTriggers with _ | ⟨t, ts⟩
  · simp
  · simp only [ List.isEmpty_cons, if_neg]
    simp [ List.any_eq_true, pyContains_iff]

/-- C7: the task status enumeration consists of exactly the seven listed
states; every TaskStatus value is one of them, listed without
repetition. -/
theorem taskStatus_exactly_seven :
    allTaskStatuses.length = 7 ∧ allTaskStatuses.Nodup ∧
      ∀ s : TaskStatus, s ∈ allTaskStatuses := by
  refine ⟨rfl, by decide, fun s => ?_⟩
  cases s <;> simp [allTaskStatuses]

/-- C9: the Discord handlers bound every successful chat response: a
message longer than 1900 characters is replaced by its first 1900
characters plus "...", so with a short emoji prefix the sent text stays
within Discord's 2000-character limit, and a message of at most 1900
characters is sent unmodified apart from that prefix. -/
theorem discord_response_bounded (emoji : PyStr) (char_mode : Bool) (s : PyStr)
    (hemoji : emoji.length ≤ 96) :
    (truncateResponse s).length ≤ 1903 ∧
      (multiBotFormat emoji char_mode s).length ≤ 2000 ∧
      (agentHandlerFormat (some emoji) char_mode s).length ≤ 2000 ∧
      (truncateResponse s).length ≤ 2000 ∧
      (s.length ≤ 1900 → truncateResponse s = s) := by
  have htr : (truncateResponse s).length ≤ 1903 := by
    unfold truncateResponse
    split <;> simp_all [ List.length_append, List.length_take]
    omega
  refine ⟨htr, ?_, ?_, by omega, ?_⟩
  · unfold multiBotFormat
    dsimp only
    split
    · simp only [ List.length_append, List.length_cons]
      omega
    · omega
  · unfold agentHandlerFormat
    dsimp only
    split
    · simp only [ List.length_append, List.length_cons]
      omega
    · omega
  · intro hs
    unfold truncateResponse
    split
    · omega
    · rfl

/-- Witness for discord_response_bounded at a concrete emoji and
message. -/
theorem discord_response_bounded_witness :
    ("R".data.length ≤ 96) ∧
      ((truncateResponse "ok".data).length ≤ 1903 ∧
        (multiBotFormat "R".data true "ok".data).length ≤ 2000 ∧
        (agentHandlerFormat (some "R".data) true "ok".data).length ≤ 2000 ∧
        (truncateResponse "ok".data).length ≤ 2000 ∧
        ("ok".data.length ≤ 1900 → truncateResponse "ok".data = "ok".data)) :=
  ⟨by decide, discord_response_bounded "R".data true "ok".data (by decide)⟩

/-- C8: the API-limit gate shared by BaseAgent.run and
BaseAgent.send_message: once the counter has reached max_api_calls the
call returns success=False with message "API limit exceeded" and an
unchanged counter (so every subsequent call does the same) without
reaching the SDK; below the limit the SDK call proceeds with the counter
incremented by exactly one; reset_api_count returns the counter to zero,
after which a positive limit lets calls through again. -/
theorem api_limit_gate (st : ApiState) :
    (st.max_api_calls ≤ st.api_call_count →
      run_gate st = .limited
        { success := false, message := "API limit exceeded".data,
          error := some (apiLimitError st.max_api_calls) } st) ∧
    (st.api_call_count < st.max_api_calls →
      run_gate st = .sdkCall { st with api_call_count := st.api_call_count + 1 }) ∧
    (reset_api_count st).api_call_count = 0 ∧
    (0 < st.max_api_calls →
      run_gate (reset_api_count st) = .sdkCall { st with api_call_count := 1 }) := by
  have hlow : ∀ st2 : ApiState, st2.api_call_count < st2.max_api_calls →
      run_gate st2 = .sdkCall { st2 with api_call_count := st2.api_call_count + 1 } := by
    intro st2 h
    unfold run_gate check_api_limit
    rw [if_neg (by omega)]
  refine ⟨fun h => ?_, hlow st, rfl, fun h => ?_⟩
  · unfold run_gate check_api_limit
    rw [if_pos h]
  · have h2 := hlow (reset_api_count st) (by simpa [reset_api_count] using h)
    simpa [reset_api_count] using h2

/-- Witness for api_limit_gate: at the limit the gate blocks, below it the
counter advances by one. -/
theorem api_limit_gate_witness :
    (run_gate ⟨5, 5⟩ = .limited
      { success := false, message := "API limit exceeded".data,
        error := some (apiLimitError 5) } ⟨5, 5⟩) ∧
    (run_gate ⟨2, 5⟩ = .sdkCall ⟨3, 5⟩) ∧
    (reset_api_count ⟨5, 5⟩).api_call_count = 0 ∧
    (run_gate (reset_api_count ⟨5, 5⟩) = .sdkCall ⟨1, 5⟩) :=
  ⟨(api_limit_gate ⟨5, 5⟩).1 (by decide),
   (api_limit_gate ⟨2, 5⟩).2.1 (by decide),
   (api_limit_gate ⟨5, 5⟩).2.2.1,
   (api_limit_gate ⟨5, 5⟩).2.2.2 (by decide)⟩

/-- C4: Council.approve_task returns True exactly when the task exists
with status awaiting_approval; on success the task passes through
approved and ends stored with status completed; on failure the whole
council state is unchanged. -/
theorem approve_task_spec (s : CouncilState) (id : PyStr) (now : Nat) :
    ((Council.approve_task s id now).1 = true ↔
      ∃ t, dictGet id s.tasks = some t ∧ t.status = .awaiting_approval) ∧
    (∀ t, dictGet id s.tasks = some t → t.status = .awaiting_approval →
      dictGet id (Council.approve_mid s id t now).tasks =
        some (t.update_status .approved now) ∧
      (t.update_status .approved now).status = .approved ∧
      dictGet id (Council.approve_task s id now).2.tasks =
        some ((t.update_status .approved now).update_status .completed now) ∧
      ((t.update_status .approved now).update_status .completed now).status
        = .completed) ∧
    ((Council.approve_task s id now).1 = false →
      (Council.approve_task s id now).2 = s) := by
  refine ⟨⟨?_, ?_⟩, ?_, ?_⟩
  · intro htrue
    unfold Council.approve_task at htrue
    rcases hget : dictGet id s.tasks with _ | t
    · rw [hget] at htrue
      simp at htrue
    · rw [hget] at htrue
      dsimp only at htrue
      by_cases hst : t.status = .awaiting_approval
      · exact ⟨t, rfl, hst⟩
      · rw [if_neg hst] at htrue
        simp at htrue
  · rintro ⟨t, hget, hst⟩
    unfold Council.approve_task
    rw [hget]
    dsimp only
    rw [if_pos hst]
  · intro t hget hst
    refine ⟨dictGet_insert_self _ _ _, rfl, ?_, rfl⟩
    unfold Council.approve_task
    rw [hget]
    dsimp only
    rw [if_pos hst]
    exact dictGet_insert_self _ _ _
  · intro hfalse
    unfold Council.approve_task at hfalse ⊢
    rcases hget : dictGet id s.tasks with _ | t
    · rfl
    · rw [hget] at hfalse
      dsimp only at hfalse ⊢
      by_cases hst : t.status = .awaiting_approval
      · rw [if_pos hst] at hfalse
        simp at hfalse
      · rw [if_neg hst]

/-- Witness for approve_task_spec: approving an awaiting task stores it
completed, and approving in an empty council changes nothing. -/
theorem approve_task_spec_witness :
    dictGet "a1".data (Council.approve_task wsAwait "a1".data 7).2.tasks =
      some ((wTaskAwait.update_status .approved 7).update_status .completed 7) ∧
    (Council.approve_task (initState none) "a1".data 7).2 = initState none :=
  ⟨((approve_task_spec wsAwait "a1".data 7).2.1 wTaskAwait (by decide)
      (by decide)).2.2.1,
   (approve_task_spec (initState none) "a1".data 7).2.2 (by decide)⟩

/-- C5: Council.cancel_task returns False leaving the state unchanged
when the task is missing or not pending/in_progress; otherwise it returns
True, stores the task as cancelled, requests cancellation of the
registered asyncio handle if there is one, and touches no other task. -/
theorem cancel_task_spec (s : CouncilState) (id : PyStr) (now : Nat) :
    (dictGet id s.tasks = none → Council.cancel_task s id now = (false, s)) ∧
    (∀ t, dictGet id s.tasks = some t →
      ¬(t.status = .pending ∨ t.status = .in_progress) →
      Council.cancel_task s id now = (false, s)) ∧
    (∀ t, dictGet id s.tasks = some t →
      (t.status = .pending ∨ t.status = .in_progress) →
      (Council.cancel_task s id now).1 = true ∧
      dictGet id (Council.cancel_task s id now).2.tasks =
        some (t.update_status .cancelled now) ∧
      (t.update_status .cancelled now).status = .cancelled ∧
      (id ∈ s.running → id ∈ (Council.cancel_task s id now).2.cancelRequested) ∧
      (∀ k, k ≠ id →
        dictGet k (Council.cancel_task s id now).2.tasks = dictGet k s.tasks) ∧
      (Council.cancel_task s id now).2.running = s.running) := by
  refine ⟨?_, ?_, ?_⟩
  · intro hnone
    unfold Council.cancel_task
    rw [hnone]
  · intro t hget hst
    unfold Council.cancel_task
    rw [hget]
    dsimp only
    rw [if_neg hst]
  · intro t hget hst
    by_cases hrun : id ∈ s.running
    · have hred : Council.cancel_task s id now =
          (true, { s with
            cancelRequested := id :: s.cancelRequested,
            tasks := dictInsert id (t.update_status .cancelled now)
              s.tasks }) := by
        unfold Council.cancel_task
        rw [hget]
        dsimp only
        rw [if_pos hst, if_pos hrun]
      rw [hred]
      exact ⟨rfl, dictGet_insert_self _ _ _, rfl,
        fun _ => List.mem_cons_self _ _,
        fun k hk => dictGet_insert_ne _ _ _ _ hk, rfl⟩
    · have hred : Council.cancel_task s id now =
          (true, { s with
            tasks := dictInsert id (t.update_status .cancelled now)
              s.tasks }) := by
        unfold Council.cancel_task
        rw [hget]
        dsimp only
        rw [if_pos hst, if_neg hrun]
      rw [hred]
      exact ⟨rfl, dictGet_insert_self _ _ _, rfl, fun h => absurd h hrun,
        fun k hk => dictGet_insert_ne _ _ _ _ hk, rfl⟩

/-- Witness for cancel_task_spec: cancelling a running in-progress task
succeeds and requests the handle cancellation; cancelling in an empty
council changes nothing. -/
theorem cancel_task_spec_witness :
    Council.cancel_task (initState none) "r1".data 2 = (false, initState none) ∧
    ((Council.cancel_task wsRun "r1".data 2).1 = true ∧
      "r1".data ∈ (Council.cancel_task wsRun "r1".data 2).2.cancelRequested) := by
  have h := (cancel_task_spec wsRun "r1".data 2).2.2 wTaskRun (by decide)
    (by decide)
  exact ⟨(cancel_task_spec (initState none) "r1".data 2).1 (by decide),
    h.1, h.2.2.2.1 (by decide)⟩

/-- Re-inserting under the same key overwrites the previous insertion. -/
theorem dictInsert_insert {α : Type} (k : PyStr) (v1 v2 : α)
    (d : List (PyStr × α)) :
    dictInsert k v2 (dictInsert k v1 d) = dictInsert k v2 d := by
  induction d with
  | nil => simp [dictInsert]
  | cons p rest ih =>
      obtain ⟨k2, w⟩ := p
      by_cases h : k2 = k
      · subst h
        simp [dictInsert]
      · simp [dictInsert, h, ih]

/-- Reduction of Council.create_task without auto_start. -/
theorem council_create_state_false (s : CouncilState) (d a : PyStr)
    (ru rf : Option PyStr) (th : Option Int) (uuid : PyStr) (now : Nat) :
    (Council.create_task s d a ru rf th false uuid now).1.id = uuidShort uuid ∧
    (Council.create_task s d a ru rf th false uuid now).1.status = .pending ∧
    (Council.create_task s d a ru rf th false uuid now).2 =
      { s with
        tasks :=
          dictInsert (uuidShort uuid)
            (Council.create_task s d a ru rf th false uuid now).1 s.tasks } :=
  ⟨rfl, rfl, rfl⟩

/-- Reduction of Council.create_task with auto_start: the task starts
in_progress and its handle is registered. -/
theorem council_create_state_true (s : CouncilState) (d a : PyStr)
    (ru rf : Option PyStr) (th : Option Int) (uuid : PyStr) (now : Nat) :
    (Council.create_task s d a ru rf th true uuid now).1.id = uuidShort uuid ∧
    (Council.create_task s d a ru rf th true uuid now).1.status = .in_progress ∧
    (Council.create_task s d a ru rf th true uuid now).2 =
      { s with
        tasks :=
          dictInsert (uuidShort uuid)
            (Council.create_task s d a ru rf th true uuid now).1 s.tasks,
        running := uuidShort uuid :: s.running } := by
  refine ⟨rfl, rfl, ?_⟩
  have h :
      dictInsert (uuidShort uuid)
        (Council.create_task s d a ru rf th true uuid now).1
        (dictInsert (uuidShort uuid)
          (Council.create_task s d a ru rf th false uuid now).1 s.tasks) =
      dictInsert (uuidShort uuid)
        (Council.create_task s d a ru rf th true uuid now).1 s.tasks :=
    dictInsert_insert _ _ _ _
  calc (Council.create_task s d a ru rf th true uuid now).2
      = { s with
          tasks :=
            dictInsert (uuidShort uuid)
              (Council.create_task s d a ru rf th true uuid now).1
              (dictInsert (uuidShort uuid)
                (Council.create_task s d a ru rf th false uuid now).1 s.tasks),
          running := uuidShort uuid :: s.running } := rfl
    _ = { s with
          tasks :=
            dictInsert (uuidShort uuid)
              (Council.create_task s d a ru rf th true uuid now).1 s.tasks,
          running := uuidShort uuid :: s.running } := by rw [h]

/-- Reduction of Council.execute_mutation for a missing id. -/
theorem mutation_state_none {s : CouncilState} {id : PyStr} {o : ExecOutcome}
    {now : Nat} (hget : dictGet id s.tasks = none) :
    Council.execute_mutation s id o now = s := by
  unfold Council.execute_mutation
  rw [hget]

/-- Reduction of Council.execute_mutation for a stored task. -/
theorem mutation_state_some {s : CouncilState} {id : PyStr} {o : ExecOutcome}
    {now : Nat} {t : Task} (hget : dictGet id s.tasks = some t) :
    Council.execute_mutation s id o now =
      { s with tasks := dictInsert id (applyOutcome t o now) s.tasks } := by
  unfold Council.execute_mutation
  rw [hget]

/-- Reduction of Council.cancel_task for a missing id. -/
theorem cancel_state_none {s : CouncilState} {id : PyStr} {now : Nat}
    (hget : dictGet id s.tasks = none) :
    Council.cancel_task s id now = (false, s) := by
  unfold Council.cancel_task
  rw [hget]

/-- Reduction of Council.cancel_task for a non-cancellable status. -/
theorem cancel_state_status {s : CouncilState} {id : PyStr} {now : Nat}
    {t : Task} (hget : dictGet id s.tasks = some t)
    (hst : ¬(t.status = .pending ∨ t.status = .in_progress)) :
    Council.cancel_task s id now = (false, s) := by
  unfold Council.cancel_task
  rw [hget]
  dsimp only
  rw [if_neg hst]

/-- Reduction of Council.cancel_task when the task is cancellable and its
handle is registered. -/
theorem cancel_state_run {s : CouncilState} {id : PyStr} {now : Nat}
    {t : Task} (hget : dictGet id s.tasks = some t)
    (hst : t.status = .pending ∨ t.status = .in_progress)
    (hrun : id ∈ s.running) :
    Council.cancel_task s id now =
      (true, { s with
        cancelRequested := id :: s.cancelRequested,
        tasks := dictInsert id (t.update_status .cancelled now) s.tasks }) := by
  unfold Council.cancel_task
  rw [hget]
  dsimp only
  rw [if_pos hst, if_pos hrun]

/-- Reduction of Council.cancel_task when the task is cancellable and no
handle is registered. -/
theorem cancel_state_norun {s : CouncilState} {id : PyStr} {now : Nat}
    {t : Task} (hget : dictGet id s.tasks = some t)
    (hst : t.status = .pending ∨ t.status = .in_progress)
    (hrun : id ∉ s.running) :
    Council.cancel_task s id now =
      (true, { s with
        tasks := dictInsert id (t.update_status .cancelled now) s.tasks }) := by
  unfold Council.cancel_task
  rw [hget]
  dsimp only
  rw [if_pos hst, if_neg hrun]

/-- Reduction of Council.approve_task for a missing id. -/
theorem approve_state_none {s : CouncilState} {id : PyStr} {now : Nat}
    (hget : dictGet id s.tasks = none) :
    Council.approve_task s id now = (false, s) := by
  unfold Council.approve_task
  rw [hget]

/-- Reduction of Council.approve_task for a status other than
awaiting_approval. -/
theorem approve_state_status {s : CouncilState} {id : PyStr} {now : Nat}
    {t : Task} (hget : dictGet id s.tasks = some t)
    (hst : ¬ t.status = .awaiting_approval) :
    Council.approve_task s id now = (false, s) := by
  unfold Council.approve_task
  rw [hget]
  dsimp only
  rw [if_neg hst]

/-- Reduction of Council.approve_task on an awaiting task. -/
theorem approve_state_eq {s : CouncilState} {id : PyStr} {now : Nat}
    {t : Task} (hget : dictGet id s.tasks = some t)
    (hst : t.status = .awaiting_approval) :
    Council.approve_task s id now =
      (true, { s with
        tasks :=
          dictInsert id
            ((t.update_status .approved now).update_status .completed now)
            s.tasks }) := by
  unfold Council.approve_task
  rw [hget]
  dsimp only
  rw [if_pos hst]
  unfold Council.approve_mid
  dsimp only
  rw [dictInsert_insert]

/-- C1 counterexample: a concrete reachable trace in which a Council
operation changes a terminal status. A devops task is created with
auto_start, Council.cancel_task sets it to cancelled while its execution
handle is still registered, and the execution then ends through the
except Exception branch (agent cleanup raised during the cancellation,
superseding the CancelledError), whose set_error moves the
already-cancelled task to failed. -/
theorem cancelled_task_becomes_failed :
    Reachable cxC1s2 ∧
    Step cxC1s2 cxC1s3 ∧
    (dictGet "12345678".data cxC1s2.tasks = some cxC1taskC ∧
      cxC1taskC.status = .cancelled ∧ cxC1taskC.status.isTerminal = true) ∧
    (dictGet "12345678".data cxC1s3.tasks = some cxC1taskF ∧
      cxC1taskF.status = .failed) :=
  ⟨Reachable.step
      (Reachable.step (Reachable.init none)
        (Step.create (initState none) "check containers".data "devops".data
          none none none true wUuid 0 (by decide)))
      (Step.cancel wC1s1 "12345678".data 1),
   Step.mutate cxC1s2 "12345678".data
     (.raisedError "disconnect failed".data) 2 (by decide),
   ⟨by decide, rfl, rfl⟩, ⟨by decide, rfl⟩⟩

/-- C1 (amended): once a task's status is terminal (completed, failed or
cancelled) and its execution handle is no longer registered in
_running_tasks, no Council operation changes its status again; while the
handle is still registered, the execution's own exception handling may
overwrite even a terminal status with failed. -/
theorem task_terminal_stable (s s2 : CouncilState) (id : PyStr) (t : Task)
    (hstep : Step s s2) (hget : dictGet id s.tasks = some t)
    (hterm : t.status.isTerminal = true) (hnrun : id ∉ s.running) :
    ∃ t2, dictGet id s2.tasks = some t2 ∧ t2.status = t.status := by
  cases hstep with
  | create d a ru rf th auto uuid now hfresh =>
      have hneq : id ≠ uuidShort uuid := by
        intro he
        rw [he, hfresh] at hget
        exact Option.noConfusion hget
      cases auto with
      | false =>
          obtain ⟨_, _, hst2⟩ :=
            council_create_state_false s d a ru rf th uuid now
          rw [hst2]
          refine ⟨t, ?_, rfl⟩
          dsimp only
          rw [dictGet_insert_ne _ _ _ _ hneq]
          exact hget
      | true =>
          obtain ⟨_, _, hst2⟩ :=
            council_create_state_true s d a ru rf th uuid now
          rw [hst2]
          refine ⟨t, ?_, rfl⟩
          dsimp only
          rw [dictGet_insert_ne _ _ _ _ hneq]
          exact hget
  | mutate mid o now hrun =>
      by_cases heq : id = mid
      · subst heq
        exact absurd hrun hnrun
      · rcases hget2 : dictGet mid s.tasks with _ | tm
        · rw [mutation_state_none hget2]
          exact ⟨t, hget, rfl⟩
        · rw [mutation_state_some hget2]
          refine ⟨t, ?_, rfl⟩
          dsimp only
          rw [dictGet_insert_ne _ _ _ _ heq]
          exact hget
  | remove rid =>
      exact ⟨t, hget, rfl⟩
  | cancel cid now =>
      rcases hget2 : dictGet cid s.tasks with _ | tc
      · rw [cancel_state_none hget2]
        exact ⟨t, hget, rfl⟩
      · by_cases hst : tc.status = .pending ∨ tc.status = .in_progress
        · by_cases heq : id = cid
          · subst heq
            have htc : tc = t := by
              rw [hget] at hget2
              exact (Option.some.inj hget2).symm
            subst htc
            exfalso
            rcases hst with hp | hp <;> rw [hp] at hterm <;>
              exact absurd hterm (by decide)
          · by_cases hrun2 : cid ∈ s.running
            · rw [cancel_state_run hget2 hst hrun2]
              refine ⟨t, ?_, rfl⟩
              dsimp only
              rw [dictGet_insert_ne _ _ _ _ heq]
              exact hget
            · rw [cancel_state_norun hget2 hst hrun2]
              refine ⟨t, ?_, rfl⟩
              dsimp only
              rw [dictGet_insert_ne _ _ _ _ heq]
              exact hget
        · rw [cancel_state_status hget2 hst]
          exact ⟨t, hget, rfl⟩
  | approve aid now =>
      rcases hget2 : dictGet aid s.tasks with _ | ta
      · rw [approve_state_none hget2]
        exact ⟨t, hget, rfl⟩
      · by_cases hst : ta.status = .awaiting_approval
        · by_cases heq : id = aid
          · subst heq
            have hta : ta = t := by
              rw [hget] at hget2
              exact (Option.some.inj hget2).symm
            subst hta
            exfalso
            rw [hst] at hterm
            exact absurd hterm (by decide)
          · rw [approve_state_eq hget2 hst]
            refine ⟨t, ?_, rfl⟩
            dsimp only
            rw [dictGet_insert_ne _ _ _ _ heq]
            exact hget
        · rw [approve_state_status hget2 hst]
          exact ⟨t, hget, rfl⟩

/-- Witness for task_terminal_stable: cancelling a completed devops task
whose execution has fully finished leaves it completed. -/
theorem task_terminal_stable_witness :
    ∃ t2, dictGet "12345678".data
        (Council.cancel_task wC1s2 "12345678".data 3).2.tasks = some t2 ∧
      t2.status = wC1task.status :=
  task_terminal_stable wC1s2 _ "12345678".data wC1task
    (Step.cancel wC1s2 "12345678".data 3)
    (by decide) (by decide) (by decide)

/-- C2: the multi-bot on_message handler sends something (the help
fallback, a formatted response or an error reply) exactly when the author
is neither the bot itself nor any bot, and the bot is directly mentioned,
@everyone or @here is mentioned, the channel is a DM, or the agent's
trigger check on the message content succeeds; in every other case it
returns without sending. -/
theorem multiBot_responds_iff (m : IncomingMessage) (cfgTriggers : List PyStr)
    (botUser : Option PyStr) (chatResult : AgentResult) (emoji : PyStr)
    (char_mode : Bool) :
    multiBot_on_message m cfgTriggers botUser chatResult emoji char_mode ≠
        .silent ↔
      (m.authorIsSelf = false ∧ m.authorIsBot = false ∧
        (m.mentionsBot = true ∨ m.mention_everyone = true ∨ m.isDM = true ∨
          agent_is_relevant m.content (some cfgTriggers) cfgTriggers
            = true)) := by
  obtain ⟨aSelf, aBot, mb, me, dm, content⟩ := m
  cases aSelf with
  | true =>
      constructor
      · intro hne
        exact absurd rfl hne
      · rintro ⟨hfalse, -, -⟩
        exact Bool.noConfusion hfalse
  | false =>
      cases aBot with
      | true =>
          constructor
          · intro hne
            exact absurd rfl hne
          · rintro ⟨-, hfalse, -⟩
            exact Bool.noConfusion hfalse
      | false =>
          have hred : multiBot_on_message ⟨false, false, mb, me, dm, content⟩
              cfgTriggers botUser chatResult emoji char_mode =
              (if (mb || me || dm ||
                  agent_is_relevant content (some cfgTriggers) cfgTriggers)
                  = true then
                 (if (stripMentionContent content botUser).isEmpty = true then
                    BotSend.helpReply
                  else if chatResult.success = true then
                    .reply (multiBotFormat emoji char_mode chatResult.message)
                  else
                    .errorReply ("Sorry, I encountered an error: ".data ++
                      (match chatResult.error with
                       | some e => e
                       | none => "None".data)))
               else .silent) := rfl
          rw [hred]
          by_cases hs : (mb || me || dm ||
              agent_is_relevant content (some cfgTriggers) cfgTriggers) = true
          · rw [if_pos hs]
            constructor
            · intro _
              exact ⟨rfl, rfl, by simpa [Bool.or_eq_true, or_assoc] using hs⟩
            · intro _
              split
              · exact fun h => BotSend.noConfusion h
              · split
                · exact fun h => BotSend.noConfusion h
                · exact fun h => BotSend.noConfusion h
          · rw [if_neg hs]
            constructor
            · intro hfoo
              exact absurd rfl hfoo
            · rintro ⟨-, -, hor⟩
              exact absurd (by simpa [Bool.or_eq_true, or_assoc] using hor) hs

end ShippingCouncil
